import Mathlib

/-!
Shallow embedding of the FateAnotherRL inference server
(`src/inference_server`), covering the parts of the code that the
verified claims are about: the state encoder's enemy sort and mask
construction, the grid-channel and mask write index sets, the
fog-of-war enemy vector, the reward pipeline, the drain-cycle packet
classification, the per-agent LSTM hidden-state bookkeeping and the
model (re)load logic of the inference engine.

Machine floats of the C++ code are modelled as exact rationals; the
two library calls `std::sqrt` / `std::atan2` appearing inside encoded
feature values are carried as function parameters, and comparisons of
the form `sqrt e < c` in control flow are embedded as `e < c * c`
(equivalent over the reals for nonnegative `e`).
-/

namespace Fate

/-! ## Constants (`include/constants.h`) -/

def hero_ids : List String :=
  ["H000", "H001", "H002", "H03M", "H028", "H009",
   "H007", "H005", "H003", "H006", "H004", "H008"]

def NUM_HEROES : ℕ := 12
def SELF_DIM : ℕ := 77
def ALLY_DIM : ℕ := 37
def ENEMY_DIM : ℕ := 43
def GLOBAL_DIM : ℕ := 6
def GRID_CHANNELS : ℕ := 3
def OBS_GRID_H : ℕ := 25
def OBS_GRID_W : ℕ := 48
def GRID_CELLS : ℕ := OBS_GRID_W * OBS_GRID_H

def MAP_MIN_X : ℚ := -8416
def MAP_MIN_Y : ℚ := -2592
def CELL_SIZE : ℚ := 350

/-- The eleven discrete action heads with their arities
(`constants.h`, `discrete_heads()`). -/
def discrete_heads : List (String × ℕ) :=
  [("skill", 8), ("unit_target", 14), ("skill_levelup", 6),
   ("stat_upgrade", 10), ("attribute", 5), ("item_buy", 17),
   ("item_use", 7), ("seal_use", 7), ("faire_send", 6),
   ("faire_request", 6), ("faire_respond", 3)]

/-! Reward constants (`constants.h`, namespace `RewardDefaults`),
as exact rationals. -/

def kill_personal : ℚ := 3
def death_reward : ℚ := -1
def creep_reward : ℚ := 16/100
def levelup_reward : ℚ := 1/2
def friendly_kill : ℚ := -3
def score_point : ℚ := 2
def damage_coef : ℚ := 3
def heal_coef : ℚ := 1
def skill_points_held : ℚ := -2/100
def idle_penalty : ℚ := -3/1000
def win_reward : ℚ := 10
def lose_reward : ℚ := -5
def timeout_reward : ℚ := -2
def team_spirit : ℚ := 1/2

/-- Constants referenced by `reward_calc.cpp`
(`RewardDefaults::creep_level_cap`, `RewardDefaults::portal_decay`,
`RewardDefaults::portal_use`) whose defining declarations are absent
from the provided headers (`constants.h` does not declare them); they
are carried as parameters of the reward computation. -/
structure ExternConsts where
  creep_level_cap : ℕ
  portal_decay : ℚ
  portal_use : ℚ

/-! ## Data model (`include/protocol.h`) -/

/-- The fields of `UnitState` that the verified claims depend on.
C++ float fields are rationals, integer fields keep their integer
reading. -/
structure UnitState where
  hero_id : String
  hp : ℚ
  max_hp : ℚ
  mp : ℚ
  max_mp : ℚ
  x : ℚ
  y : ℚ
  vel_x : ℚ
  vel_y : ℚ
  alive : ℕ
  str : ℤ
  agi : ℤ
  int_ : ℤ
  atk : ℚ
  def_ : ℚ
  level : ℕ
  skill_points : ℕ
  buffs : ℕ
  visible_mask : ℕ
  mask_skill : ℕ
  mask_unit_target : ℕ
  mask_skill_levelup : ℕ
  mask_stat_upgrade : ℕ
  mask_attribute : ℕ
  mask_item_buy : ℕ
  mask_item_use : ℕ
  mask_seal_use : ℕ
  mask_faire_send : ℕ
  mask_faire_request : ℕ
  mask_faire_respond : ℕ

/-- The fields of `GlobalState` that the claims depend on. -/
structure GlobalState where
  game_time : ℚ
  is_night : ℕ
  score_team0 : ℤ
  score_team1 : ℤ

/-- `mask_bit` / `mask_bit16` / `mask_bit32` of `protocol.h`:
`(mask >> bit) & 1` as a boolean. -/
def mask_bit (m b : ℕ) : Bool := (m >>> b) &&& 1 == 1

/-- `(mask >> bit) & 1` as a 0/1 rational (the `static_cast<float>`
of a bit in the encoders). -/
def bit_val (m b : ℕ) : ℚ := ((m >>> b) &&& 1 : ℕ)

/-- Index a `UnitState[12]` array by a plain natural (always used
with in-range indices). -/
def getUnit (units : Fin 12 → UnitState) (n : ℕ) : UnitState :=
  units ⟨n % 12, Nat.mod_lt _ (by norm_num)⟩

/-! ## Enemy distance sort (`state_encoder.cpp`, `encode`) -/

/-- The sortable record built for each enemy offset 0-5
(`struct EnemySort` in `encode`). -/
structure EnemySort where
  offset : ℕ
  dist_sq : ℚ
  visible : Bool
  alive : Bool

/-- The rank used by the sort comparator:
0 = alive and visible, 1 = alive, 2 = dead. -/
def enemyRank (a : EnemySort) : ℕ :=
  if a.alive && a.visible then 0 else if a.alive then 1 else 2

/-- The strict comparator of the `std::stable_sort` call in `encode`:
by rank, then squared distance, then offset. -/
def enemyLtB (a b : EnemySort) : Bool :=
  if enemyRank a ≠ enemyRank b then decide (enemyRank a < enemyRank b)
  else if a.dist_sq ≠ b.dist_sq then decide (a.dist_sq < b.dist_sq)
  else decide (a.offset < b.offset)

/-- The non-strict order induced by `enemyLtB`, used to run the stable
sort (`a` may stay before `b` iff `b` is not strictly before `a`). -/
def enemyLe (a b : EnemySort) : Prop := enemyLtB b a = false

instance : DecidableRel enemyLe := fun a b =>
  inferInstanceAs (Decidable (enemyLtB b a = false))

/-- The array of six enemy sort records that agent `i` builds in
`encode`: offset, squared distance to self, per-observer visibility
bit and aliveness. -/
def enemySortRecords (units : Fin 12 → UnitState) (i : Fin 12) : List EnemySort :=
  let my_x := (units i).x
  let my_y := (units i).y
  let enemy_start : ℕ := if (i : ℕ) < 6 then 6 else 0
  (List.range 6).map (fun j =>
    let eu := getUnit units (enemy_start + j)
    let dx := eu.x - my_x
    let dy := eu.y - my_y
    { offset := j
      dist_sq := dx * dx + dy * dy
      visible := mask_bit eu.visible_mask (i : ℕ)
      alive := eu.alive != 0 })

/-- `sort_map.sorted_to_real[i]`: offsets of the enemy records after
the stable sort, i.e. sorted slot `s` holds the real enemy offset
`sorted_to_real[i][s]`. -/
def sorted_to_real (units : Fin 12 → UnitState) (i : Fin 12) : List ℕ :=
  (List.insertionSort enemyLe (enemySortRecords units i)).map EnemySort.offset

/-! ## Mask construction (`state_encoder.cpp`, `encode_masks`) -/

/-- The first loop of the `unit_target` block of `encode_masks`:
columns 0-7 are written with raw bits 0-7 of `mask_unit_target`. -/
def writeRawBits (m : ℕ) (row : List Bool) : List Bool :=
  (List.range 8).foldl (fun r b => r.set b (mask_bit m b)) row

/-- The second loop of the `unit_target` block (sort map present):
column `8 + s` is written with raw bit `8 + sorted_to_real[i][s]`. -/
def writeEnemyBits (m : ℕ) (smap : List ℕ) (row : List Bool) : List Bool :=
  (List.range 6).foldl (fun r s => r.set (8 + s) (mask_bit m (8 + smap.getD s 0))) row

/-- Row `i` of the `unit_target` mask tensor as produced by
`encode_masks` when a sort map is given: a row of 14 `true` entries
(`torch::ones`) overwritten by the two loops. -/
def unit_target_row (m : ℕ) (smap : List ℕ) : List Bool :=
  writeEnemyBits m smap (writeRawBits m (List.replicate 14 true))

/-- Columns written by the `item_buy` block of `encode_masks`
(`for (int b = 0; b < 18; ++b)`). -/
def item_buy_write_cols : List ℕ := List.range 18

/-- The `unit_target` remap of `send_action_packet` (`main.cpp`): a
sampled `unit_target` in 8..13 is replaced by `8 +
sorted_to_real[i][sampled - 8]`; all other values pass unchanged. -/
def emitted_unit_target (units : Fin 12 → UnitState) (i : Fin 12) (ut : ℕ) : ℕ :=
  if 8 ≤ ut ∧ ut ≤ 13 then 8 + (sorted_to_real units i).getD (ut - 8) 0 else ut

/-! ## Enemy vector encoding (`state_encoder.cpp`, `encode_enemy`) -/

/-! Normalization constants (`constants.h`, namespace `N`). -/

def n_hp : ℚ := 10000
def n_mp : ℚ := 5000
def n_xy : ℚ := 10000
def n_stat : ℚ := 200
def n_atk : ℚ := 500
def n_def : ℚ := 50
def n_level : ℚ := 25
def n_score : ℚ := 70
def n_game_time : ℚ := 1800

/-- The `M_PI` double constant used to normalize `atan2`. -/
def m_pi : ℚ := 3.14159265358979323846

/-- `hero_to_idx()` lookup with the fallback to 0 used by the
encoders when the four-character id is unknown. -/
def hero_to_idx (hid : String) : ℕ :=
  if hid ∈ hero_ids then hero_ids.indexOf hid else 0

/-- `encode_enemy`: the 43-float enemy vector for one observer.
`atan2F` and `sqrtF` stand for the `std::atan2` / `std::sqrt` calls
of the relative polar features (only reached in the fully visible
branch). The zeroed buffer (`memset`) is `List.replicate 43 0` and
the two redaction branches write single entries into it, exactly as
the source writes `out[22]` / `out[23 + hero_idx]`. -/
def encode_enemy (atan2F : ℚ → ℚ → ℚ) (sqrtF : ℚ → ℚ)
    (u : UnitState) (my_x my_y : ℚ) (observer_pid : ℕ) : List ℚ :=
  let hero_idx := hero_to_idx u.hero_id
  let vis := mask_bit u.visible_mask observer_pid
  if u.alive = 0 then
    (List.replicate 43 (0 : ℚ)).set (23 + hero_idx) 1
  else if vis = false then
    ((List.replicate 43 (0 : ℚ)).set 22 1).set (23 + hero_idx) 1
  else
    [1, u.hp / n_hp, u.max_hp / n_hp, u.mp / n_mp, u.max_mp / n_mp,
     u.x / n_xy, u.y / n_xy,
     (u.str : ℚ) / n_stat, (u.agi : ℚ) / n_stat, (u.int_ : ℚ) / n_stat,
     u.atk / n_atk, u.def_ / n_def, u.max_hp / n_hp, u.max_mp / n_mp,
     (u.level : ℚ) / n_level, 0]
    ++ (List.range 6).map (fun b => bit_val u.buffs b)
    ++ [1]
    ++ (List.range 12).map (fun h => if h = hero_idx then 1 else 0)
    ++ [u.vel_x / 500, u.vel_y / 500, -1, -1, -1, -1,
        atan2F (u.y - my_y) (u.x - my_x) / m_pi,
        sqrtF ((u.x - my_x) * (u.x - my_x) + (u.y - my_y) * (u.y - my_y)) / 10000]

/-! ## Reward pipeline (`src/reward_calc.cpp`) -/

/-- `RewardCalc::apply_zero_sum`: subtract the enemy team's average
from every agent. Team 0 is indices 0-5, team 1 is 6-11. -/
def apply_zero_sum (r : Fin 12 → ℚ) : Fin 12 → ℚ :=
  let avg0 : ℚ := (r 0 + r 1 + r 2 + r 3 + r 4 + r 5) / 6
  let avg1 : ℚ := (r 6 + r 7 + r 8 + r 9 + r 10 + r 11) / 6
  fun i => if (i : ℕ) < 6 then r i - avg1 else r i - avg0

/-- `RewardCalc::apply_team_spirit`: replace each reward with
`tau * team_avg + (1 - tau) * individual`. -/
def apply_team_spirit (tau : ℚ) (r : Fin 12 → ℚ) : Fin 12 → ℚ :=
  let avg0 : ℚ := (r 0 + r 1 + r 2 + r 3 + r 4 + r 5) / 6
  let avg1 : ℚ := (r 6 + r 7 + r 8 + r 9 + r 10 + r 11) / 6
  fun i => if (i : ℕ) < 6 then tau * avg0 + (1 - tau) * r i
           else tau * avg1 + (1 - tau) * r i

/-- `RewardCalc::apply_time_decay`: multiply every reward by
`decay = pow(time_decay_base, game_time / time_decay_interval)`.
The transcendental `std::pow` value is passed in as `decay`. -/
def apply_time_decay (decay : ℚ) (r : Fin 12 → ℚ) : Fin 12 → ℚ :=
  fun i => r i * decay

/-! ## Per-tick reward computation (`reward_calc.cpp`, `RewardCalc::compute`) -/

/-- Event tags. `protocol.h` declares `EVT_KILL = 1`,
`EVT_CREEP_KILL = 2`, `EVT_LEVEL_UP = 3`; `reward_calc.cpp` also
switches on an `EVT_PORTAL` tag whose enum value is absent from the
provided headers, and `other` covers the `default:` branch. Only the
tag is relevant to the reward switch, so events are embedded with a
symbolic tag. -/
inductive EvType
  | kill
  | creepKill
  | levelUp
  | portal
  | other
  deriving DecidableEq

/-- An event record (`killer_idx` doubles as the unit index for
LEVEL_UP and PORTAL, as in the source). The C++ `killer >= 0` checks
are vacuous over `ℕ`. -/
structure Event where
  typ : EvType
  killer_idx : ℕ
  victim_idx : ℕ

/-- `rewards[j] += v` on a 12-entry reward array. -/
def addAt (r : Fin 12 → ℚ) (j : ℕ) (v : ℚ) : Fin 12 → ℚ :=
  fun i => if (i : ℕ) = j then r i + v else r i

/-- Read a 12-entry array at a plain natural index. -/
def at12 {α : Type} (f : Fin 12 → α) (n : ℕ) : α :=
  f ⟨n % 12, Nat.mod_lt _ (by norm_num)⟩

/-- One iteration of the event switch of `RewardCalc::compute`
(phase 1). The accumulator carries the reward array and the
`portal_count_` state. -/
def evStep (ext : ExternConsts) (units : Fin 12 → UnitState)
    (acc : (Fin 12 → ℚ) × (Fin 12 → ℕ)) (ev : Event) :
    (Fin 12 → ℚ) × (Fin 12 → ℕ) :=
  match ev.typ with
  | EvType.kill =>
      if ev.killer_idx < 12 ∧ ev.victim_idx < 12 then
        let killer_team : ℕ := if ev.killer_idx < 6 then 0 else 1
        let victim_team : ℕ := if ev.victim_idx < 6 then 0 else 1
        let r1 := if killer_team ≠ victim_team
                  then addAt acc.1 ev.killer_idx kill_personal
                  else addAt acc.1 ev.killer_idx friendly_kill
        (addAt r1 ev.victim_idx death_reward, acc.2)
      else acc
  | EvType.creepKill =>
      if ev.killer_idx < 12 ∧
          (getUnit units ev.killer_idx).level < ext.creep_level_cap then
        (addAt acc.1 ev.killer_idx creep_reward, acc.2)
      else acc
  | EvType.levelUp =>
      if ev.killer_idx < 12 then
        (addAt acc.1 ev.killer_idx levelup_reward, acc.2)
      else acc
  | EvType.portal =>
      if ev.killer_idx < 12 then
        let factor := ext.portal_decay ^ at12 acc.2 ev.killer_idx
        (addAt acc.1 ev.killer_idx (ext.portal_use * factor),
         fun i => if (i : ℕ) = ev.killer_idx then acc.2 i + 1 else acc.2 i)
      else acc
  | EvType.other => acc

/-- Phase 1 of `RewardCalc::compute`: fold the event switch over the
tick's event list. -/
def event_phase (ext : ExternConsts) (units : Fin 12 → UnitState)
    (events : List Event) (r : Fin 12 → ℚ) (pc : Fin 12 → ℕ) :
    (Fin 12 → ℚ) × (Fin 12 → ℕ) :=
  events.foldl (evStep ext units) (r, pc)

/-- One iteration of the damage-reward loop (phase 1b, first half):
if unit `i` was alive and lost hp, every member of the opposing team
receives `damage_coef * hp_delta / max_hp`. -/
def damage_step (units prev_units : Fin 12 → UnitState)
    (r : Fin 12 → ℚ) (i : Fin 12) : Fin 12 → ℚ :=
  if (prev_units i).alive ≠ 0 ∧ (prev_units i).hp - (units i).hp > 0 ∧
      (units i).max_hp > 0 then
    let ratio := ((prev_units i).hp - (units i).hp) / (units i).max_hp
    let attacker_base : ℕ := if (i : ℕ) < 6 then 6 else 0
    (List.range 6).foldl (fun rr a => addAt rr (attacker_base + a) (damage_coef * ratio)) r
  else r

def damage_phase (units prev_units : Fin 12 → UnitState) (r : Fin 12 → ℚ) :
    Fin 12 → ℚ :=
  (List.finRange 12).foldl (damage_step units prev_units) r

/-- One iteration of the self-heal loop (phase 1b, second half). -/
def heal_step (units prev_units : Fin 12 → UnitState)
    (r : Fin 12 → ℚ) (i : Fin 12) : Fin 12 → ℚ :=
  if (units i).alive ≠ 0 ∧ (prev_units i).alive ≠ 0 ∧
      (units i).hp - (prev_units i).hp > 0 ∧ (units i).max_hp > 0 then
    addAt r i (heal_coef * (((units i).hp - (prev_units i).hp) / (units i).max_hp))
  else r

def heal_phase (units prev_units : Fin 12 → UnitState) (r : Fin 12 → ℚ) :
    Fin 12 → ℚ :=
  (List.finRange 12).foldl (heal_step units prev_units) r

/-- Phase 2 of `RewardCalc::compute`: score-delta rewards. -/
def score_phase (global prev_global : GlobalState) (r : Fin 12 → ℚ) :
    Fin 12 → ℚ :=
  let d0 : ℤ := global.score_team0 - prev_global.score_team0
  let d1 : ℤ := global.score_team1 - prev_global.score_team1
  let r1 := if d0 > 0 then
    (List.range 6).foldl (fun rr i => addAt rr i (score_point * (d0 : ℚ))) r
  else r
  if d1 > 0 then
    (List.range 6).foldl (fun rr i => addAt rr (6 + i) (score_point * (d1 : ℚ))) r1
  else r1

/-- Mutable state of a `RewardCalc` across ticks. -/
structure CalcState where
  prev_x : Fin 12 → ℚ
  prev_y : Fin 12 → ℚ
  has_prev_pos : Bool
  portal_count : Fin 12 → ℕ
  prev_game_time : ℚ

/-- The combat-activity exemption of the idle penalty: the unit's own
hp changed by more than 1, or some enemy within 800 world units lost
more than 1 hp (`sqrt e < 800` embedded as `e < 800 * 800`). -/
def in_combat (units prev_units : Fin 12 → UnitState) (has_prev : Bool)
    (i : Fin 12) : Bool :=
  if has_prev then
    if |(units i).hp - (prev_units i).hp| > 1 then true
    else
      let enemy_base : ℕ := if (i : ℕ) < 6 then 6 else 0
      (List.range 6).any (fun e =>
        let eu := getUnit units (enemy_base + e)
        let pu := getUnit prev_units (enemy_base + e)
        let edx := (units i).x - eu.x
        let edy := (units i).y - eu.y
        decide (pu.hp - eu.hp > 1 ∧ edx * edx + edy * edy < 640000))
  else false

/-- Phase 3 of `RewardCalc::compute` (per-tick penalties), returning
the reward array and the updated `prev_x_` / `prev_y_` arrays. Each
loop iteration reads and writes only index `i`, so the loop is
encoded pointwise; `dist < 10` (with `dist = sqrt(dx^2+dy^2)`) is
embedded as `dx*dx + dy*dy < 100`. -/
def tick_phase (units prev_units : Fin 12 → UnitState) (has_prev : Bool)
    (st : CalcState) (r : Fin 12 → ℚ) :
    (Fin 12 → ℚ) × (Fin 12 → ℚ) × (Fin 12 → ℚ) :=
  (fun i =>
    if (units i).alive ≠ 0 then
      let dx := (units i).x - st.prev_x i
      let dy := (units i).y - st.prev_y i
      let idle : ℚ :=
        if st.has_prev_pos = true ∧ dx * dx + dy * dy < 100 ∧
            in_combat units prev_units has_prev i = false
        then idle_penalty else 0
      let sp : ℚ :=
        if (units i).skill_points > 0
        then skill_points_held * ((units i).skill_points : ℚ) else 0
      r i + idle + sp
    else r i,
   fun i => if (units i).alive ≠ 0 then (units i).x else st.prev_x i,
   fun i => if (units i).alive ≠ 0 then (units i).y else st.prev_y i)

/-- `RewardCalc::compute`: the full per-tick pipeline in source
order — events, damage/heal, score deltas, per-tick penalties, team
spirit, zero-sum, time decay. `decay` stands for the value of
`std::pow(time_decay_base, game_time / time_decay_interval)`
(`pow(0.7, 0) = 1` exactly when `game_time = 0`). -/
def compute (ext : ExternConsts) (decay : ℚ)
    (units : Fin 12 → UnitState) (global : GlobalState) (events : List Event)
    (prev_units : Fin 12 → UnitState) (prev_global : GlobalState)
    (has_prev : Bool) (st : CalcState) : (Fin 12 → ℚ) × CalcState :=
  let ep := event_phase ext units events (fun _ => 0) st.portal_count
  let r2 := if has_prev
    then heal_phase units prev_units (damage_phase units prev_units ep.1)
    else ep.1
  let r3 := if has_prev then score_phase global prev_global r2 else r2
  let tp := tick_phase units prev_units has_prev st r3
  let r4 := apply_team_spirit team_spirit tp.1
  let r5 := apply_zero_sum r4
  let r6 := apply_time_decay decay r5
  (r6, { prev_x := tp.2.1, prev_y := tp.2.2, has_prev_pos := true,
         portal_count := ep.2, prev_game_time := global.game_time })

/-! ## Drain-cycle packet classification (`main.cpp`, phase 1) -/

/-- Message kinds after header validation (`MSG_STATE`, `MSG_DONE`,
anything else). -/
inductive MsgKind
  | state
  | done
  | otherMsg
  deriving DecidableEq

/-- A datagram of one drain cycle after header validation: instance
key (the canonicalized source IP), message kind, header tick. -/
structure Packet where
  inst : ℕ
  kind : MsgKind
  tick : ℕ

/-- The classification state of phase 1: the newest STATE tick kept
per instance (`latest_state`), the DONE list, and the skipped
counter. -/
structure Classified where
  latest_tick : ℕ → Option ℕ
  dones : List Packet
  skipped : ℕ

/-- One iteration of the phase-1 loop: DONEs are collected; for a
STATE, if the instance already has a kept STATE the newer tick wins
(`tick >= prev` replaces) and the skipped counter increments, else
the STATE is installed. -/
def classifyStep (c : Classified) (p : Packet) : Classified :=
  match p.kind with
  | MsgKind.done => { c with dones := c.dones ++ [p] }
  | MsgKind.state =>
      match c.latest_tick p.inst with
      | some prev =>
          { c with
            latest_tick := fun k => if k = p.inst
              then some (if p.tick ≥ prev then p.tick else prev)
              else c.latest_tick k
            skipped := c.skipped + 1 }
      | none =>
          { c with latest_tick := fun k => if k = p.inst
              then some p.tick else c.latest_tick k }
  | MsgKind.otherMsg => c

/-- Phase 1 of the main loop over one drain cycle's packets. -/
def classify (pkts : List Packet) : Classified :=
  pkts.foldl classifyStep ⟨fun _ => none, [], 0⟩

/-! ## Per-tick LSTM hidden-state bookkeeping (`main.cpp`, phase 3) -/

/-- The per-instance LSTM maps, keyed by hero id. A hidden tensor is
modelled as an opaque integer token; `init_hidden()`'s zero tensor is
token 0. -/
structure HxMaps where
  hxh : String → Option ℤ
  hxc : String → Option ℤ

/-- `inst.hx_h[key] = v`. -/
def updMap (f : String → Option ℤ) (key : String) (v : ℤ) : String → Option ℤ :=
  fun s => if s = key then some v else f s

/-- The effect of one agent iteration on the LSTM maps alone:
read-or-init the pair, run the forward pass (`forward i (h, c)`
abstracts the `(new_h, new_c)` of `engine.infer_hero`; the error path
that reuses the input pair is the special case `forward i p = p`),
store the new pair. Inserting `init_hidden()` before reading and
reading with a zero default are equivalent, since the inserted pair
is immediately overwritten. -/
def mapStep (heroOf : Fin 12 → String) (forward : Fin 12 → ℤ × ℤ → ℤ × ℤ)
    (m : HxMaps) (i : Fin 12) : HxMaps :=
  let key := heroOf i
  let res := forward i ((m.hxh key).getD 0, (m.hxc key).getD 0)
  ⟨updMap m.hxh key res.1, updMap m.hxc key res.2⟩

/-- The LSTM maps after the first `n` agents of the loop have run. -/
def mapsAfter (heroOf : Fin 12 → String) (forward : Fin 12 → ℤ × ℤ → ℤ × ℤ)
    (m0 : HxMaps) (n : ℕ) : HxMaps :=
  ((List.finRange 12).take n).foldl (mapStep heroOf forward) m0

/-- The hidden pair that is the input to agent `i`'s inference at
this tick: the map content for `i`'s hero id just before its forward
pass, zeros when absent. -/
def inputPair (heroOf : Fin 12 → String) (forward : Fin 12 → ℤ × ℤ → ℤ × ℤ)
    (m0 : HxMaps) (i : Fin 12) : ℤ × ℤ :=
  let m := mapsAfter heroOf forward m0 (i : ℕ)
  ((m.hxh (heroOf i)).getD 0, (m.hxc (heroOf i)).getD 0)

/-- Accumulator of the inference loop: the LSTM maps, the
`input_hx_h` / `input_hx_c` snapshot arrays, and the per-agent
`(new_h, new_c)` results. -/
structure TickAcc where
  maps : HxMaps
  input_hx_h : Fin 12 → ℤ
  input_hx_c : Fin 12 → ℤ
  new_pairs : Fin 12 → ℤ × ℤ

/-- One agent iteration of the inference loop, as in the source:
snapshot the input pair into `input_hx_h/c[i]` before inference, run
the forward pass, update the instance maps with the new pair. -/
def tickStep (heroOf : Fin 12 → String) (forward : Fin 12 → ℤ × ℤ → ℤ × ℤ)
    (acc : TickAcc) (i : Fin 12) : TickAcc :=
  let key := heroOf i
  let h0 := (acc.maps.hxh key).getD 0
  let c0 := (acc.maps.hxc key).getD 0
  let res := forward i (h0, c0)
  { maps := ⟨updMap acc.maps.hxh key res.1, updMap acc.maps.hxc key res.2⟩
    input_hx_h := fun j => if j = i then h0 else acc.input_hx_h j
    input_hx_c := fun j => if j = i then c0 else acc.input_hx_c j
    new_pairs := fun j => if j = i then res else acc.new_pairs j }

/-- The whole 12-agent inference loop of one processed STATE. -/
def runAgents (heroOf : Fin 12 → String) (forward : Fin 12 → ℤ × ℤ → ℤ × ℤ)
    (m0 : HxMaps) : TickAcc :=
  (List.finRange 12).foldl (tickStep heroOf forward)
    ⟨m0, fun _ => 0, fun _ => 0, fun _ => (0, 0)⟩

/-- The hidden pair stored in agent `i`'s transition: transitions are
stored only when the instance has a previous tick (`inst.has_prev`),
and `writer.store` receives `input_hx_h[i]`, `input_hx_c[i]`. -/
def storedHx (heroOf : Fin 12 → String) (forward : Fin 12 → ℤ × ℤ → ℤ × ℤ)
    (m0 : HxMaps) (has_prev : Bool) (i : Fin 12) : Option (ℤ × ℤ) :=
  if has_prev then
    some ((runAgents heroOf forward m0).input_hx_h i,
          (runAgents heroOf forward m0).input_hx_c i)
  else none

/-! ## Model artifacts (`src/inference_engine.cpp`) -/

/-- `<model_dir>/<hero_id>.pt`, the path built by `load_hero_model`
and `maybe_reload` (`fs::path(model_dir_) / (hid + ".pt")`). -/
def model_path (dir hid : String) : String := dir ++ "/" ++ hid ++ ".pt"

/-- The artifact paths the engine deals with: one per hero id. Both
`load_hero_models` (run at construction) and `maybe_reload` loop over
exactly `hero_ids()`, so this is the complete set of paths the engine
ever stats or loads. -/
def hero_model_paths (dir : String) : List String :=
  hero_ids.map (fun hid => model_path dir hid)

/-- The per-file decision of `maybe_reload`: the path is stat-ed
(`fs::exists` / `fs::last_write_time`, abstracted as the mtime view
`fsTime`); a reload is attempted iff the file exists and either no
load time is recorded in `model_times_` (`recTime`) or the recorded
time differs from the current mtime. -/
def reload_decision (fsTime recTime : String → Option ℕ) (p : String) : Bool :=
  match fsTime p with
  | none => false
  | some t =>
      match recTime p with
      | none => true
      | some t0 => t0 != t

/-- The hero ids whose model files `maybe_reload` attempts to
reload. -/
def reloaded_heroes (dir : String) (fsTime recTime : String → Option ℕ) :
    List String :=
  hero_ids.filter (fun hid => reload_decision fsTime recTime (model_path dir hid))

/-! ## Grid encoding writes (`state_encoder.cpp`, `encode_grid`) -/

/-- Truncation toward zero of a rational: the behavior of C++'s
`static_cast<int>` on the quotient. -/
def ratTrunc (q : ℚ) : ℤ := if 0 ≤ q then ⌊q⌋ else -⌊-q⌋

/-- `world_to_grid`: world coordinates to a clamped `(gx, gy)` cell
(`gx = clamp((x - MAP_MIN_X) / CELL_SIZE, 0, W-1)`, same for `y`). -/
def world_to_grid (x y : ℚ) : ℤ × ℤ :=
  let gx := ratTrunc ((x - MAP_MIN_X) / CELL_SIZE)
  let gy := ratTrunc ((y - MAP_MIN_Y) / CELL_SIZE)
  (max 0 (min gx ((OBS_GRID_W : ℤ) - 1)), max 0 (min gy ((OBS_GRID_H : ℤ) - 1)))

/-- The flat cell offset `gy * OBS_GRID_W + gx` (nonnegative after
clamping). -/
def cell_index (x y : ℚ) : ℕ :=
  ((world_to_grid x y).2 * (OBS_GRID_W : ℤ) + (world_to_grid x y).1).toNat

/-- The static `PORTALS` table of `state_encoder.cpp`:
`((entrance x, y), (exit x, y))` per portal. -/
def PORTALS : List ((ℚ × ℚ) × (ℚ × ℚ)) :=
  [((-7328, 2128), (-2048, 7296)),
   ((-2288, -512), (-8000, -5376)),
   ((-2800, -208), (-3328, -8256)),
   ((-6816, -1568), (6288, -6208)),
   ((-5920, 4800), (-6912, 7488)),
   ((-3856, 1152), (3072, 7360)),
   ((6816, -80), (7232, 9984)),
   ((2576, 5031), (2125, 5155))]

/-- The flat float offsets written by the portal loop of
`encode_grid` (`ch3[gy * W + gx] = 1` at the entrance and exit cell
of every portal, with `ch3 = out + 3 * plane_size`). -/
def portal_write_indices : List ℕ :=
  PORTALS.flatMap (fun p =>
    [3 * GRID_CELLS + cell_index p.1.1 p.1.2,
     3 * GRID_CELLS + cell_index p.2.1 p.2.2])

/-- A creep record (`CreepState`), the fields `encode_grid` reads. -/
structure CreepState where
  x : ℚ
  y : ℚ
  hp : ℚ
  max_hp : ℚ

/-- The flat float offsets stored to by `encode_grid` after its
initial `memset` (which covers offsets `0 .. GRID_CHANNELS*1200-1`),
in source order: channel 0 writes when a full pathability plane is
present, channel 1/2 writes for alive units, the channel 3 portal
writes, and the channel 4/5 creep writes (`vis_grid` is the
observing team's visibility plane). First, the per-unit channel 1/2
store: an alive ally marks `ch1[cell]`, an alive enemy visible to the
observer marks `ch2[cell]`. -/
def unit_cell_write (my_team observer_pid : ℕ) (units : Fin 12 → UnitState)
    (i : Fin 12) : Option ℕ :=
  if (units i).alive ≠ 0 then
    let cell := cell_index (units i).x (units i).y
    let unit_team : ℕ := if (i : ℕ) < 6 then 0 else 1
    if unit_team = my_team then some (GRID_CELLS + cell)
    else if mask_bit (units i).visible_mask observer_pid
      then some (2 * GRID_CELLS + cell) else none
  else none

def encode_grid_writes (my_team : ℕ) (observer_pid : ℕ)
    (units : Fin 12 → UnitState) (pathability : List ℕ)
    (vis_grid : List ℕ) (creeps : List CreepState) : List ℕ :=
  (if pathability.length = GRID_CELLS then List.range GRID_CELLS else [])
  ++ ((List.finRange 12).filterMap (unit_cell_write my_team observer_pid units))
  ++ portal_write_indices
  ++ creeps.flatMap (fun c =>
        if c.max_hp > 0 ∧ c.hp / c.max_hp > 0 then
          (4 * GRID_CELLS + cell_index c.x c.y) ::
            (if vis_grid.length ≠ 0 ∧ vis_grid.getD (cell_index c.x c.y) 0 ≠ 0
             then [5 * GRID_CELLS + cell_index c.x c.y] else [])
        else [])

/-! ## Concrete sample data used by witness theorems -/

/-- A concrete unit used by witnesses: alive, at the map origin. -/
def exUnit : UnitState :=
  { hero_id := "H000", hp := 100, max_hp := 100, mp := 50, max_mp := 50
    x := 0, y := 0, vel_x := 0, vel_y := 0, alive := 1
    str := 10, agi := 10, int_ := 10, atk := 20, def_ := 5
    level := 1, skill_points := 0, buffs := 0, visible_mask := 4095
    mask_skill := 255, mask_unit_target := 12345, mask_skill_levelup := 63
    mask_stat_upgrade := 1023, mask_attribute := 31, mask_item_buy := 131071
    mask_item_use := 127, mask_seal_use := 127, mask_faire_send := 63
    mask_faire_request := 63, mask_faire_respond := 7 }

/-- A concrete 12-unit roster used by witnesses. -/
def exUnits : Fin 12 → UnitState := fun i => { exUnit with x := (i : ℚ) }

/-- A concrete alive enemy that no observer can see. -/
def exEnemy : UnitState := { exUnit with visible_mask := 0 }

/-- External reward constants with a creep level cap of 0 (all
killers are at or above the cap). -/
def exExtCap0 : ExternConsts :=
  { creep_level_cap := 0, portal_decay := 1, portal_use := 0 }

/-- External reward constants with a creep level cap of 100 (all
killers are below the cap). -/
def exExtCap100 : ExternConsts :=
  { creep_level_cap := 100, portal_decay := 1, portal_use := 0 }

/-- A CREEP_KILL event credited to unit 0. -/
def exCreepEv : Event :=
  { typ := EvType.creepKill, killer_idx := 0, victim_idx := 0 }

/-- Roster for the C8 counterexample: every agent alive and moved 100
world units since the previous tick (previous positions in `cexSt`
are the origin), with unchanged hp, but agent 0 holds one unspent
skill point. -/
def cexUnits : Fin 12 → UnitState := fun i =>
  if (i : ℕ) = 0 then { exUnit with x := 100, skill_points := 1 }
  else { exUnit with x := 100 }

/-- Previous-tick roster for the C8 counterexample: identical vitals
(hp unchanged). -/
def cexPrev : Fin 12 → UnitState := fun i =>
  if (i : ℕ) = 0 then { exUnit with skill_points := 1 } else exUnit

/-- Roster for the C8 witness: like `cexUnits` but with no unspent
skill points anywhere. -/
def c8Units : Fin 12 → UnitState := fun _ => { exUnit with x := 100 }

/-- Globals with equal scores and `game_time = 0` (so that the time
decay factor is exactly 1). -/
def cexGlobal : GlobalState :=
  { game_time := 0, is_night := 0, score_team0 := 0, score_team1 := 0 }

/-- Reward-calculator state with previous positions at the origin. -/
def cexSt : CalcState :=
  { prev_x := fun _ => 0, prev_y := fun _ => 0, has_prev_pos := true,
    portal_count := fun _ => 0, prev_game_time := 0 }

/-- Three STATE packets of one drain cycle, all from instance 7, with
ticks 10, 12, 11. -/
def exPackets : List Packet :=
  [⟨7, MsgKind.state, 10⟩, ⟨7, MsgKind.state, 12⟩, ⟨7, MsgKind.state, 11⟩]

/-- A concrete hero-id assignment for the LSTM witness. -/
def exHeroOf : Fin 12 → String := fun i => (hero_ids.getD (i : ℕ) "H000")

/-- A concrete forward pass for the LSTM witness: increments both
hidden tokens. -/
def exForward : Fin 12 → ℤ × ℤ → ℤ × ℤ := fun _ p => (p.1 + 1, p.2 + 1)

/-- Empty LSTM maps (first tick of an instance). -/
def exM0 : HxMaps := ⟨fun _ => none, fun _ => none⟩

/-- A filesystem view for the C4 witness: only `m/H000.pt` exists,
with mtime 5. -/
def exFsTime : String → Option ℕ := fun p => if p = "m/H000.pt" then some 5 else none

/-- Recorded load times for the C4 witness: nothing recorded. -/
def exRecTime : String → Option ℕ := fun _ => none

/-- A roster with every unit dead (C3 failing input: the portal
writes are the only post-memset grid stores). -/
def deadUnits : Fin 12 → UnitState := fun _ => { exUnit with alive := 0 }

end Fate

/-- C9: after the zero-sum step the mean of team 0's rewards plus the
mean of team 1's rewards is exactly 0 (in exact arithmetic). -/
theorem C9_zero_sum_means (r : Fin 12 → ℚ) :
    (Fate.apply_zero_sum r 0 + Fate.apply_zero_sum r 1 + Fate.apply_zero_sum r 2 +
     Fate.apply_zero_sum r 3 + Fate.apply_zero_sum r 4 + Fate.apply_zero_sum r 5) / 6 +
    (Fate.apply_zero_sum r 6 + Fate.apply_zero_sum r 7 + Fate.apply_zero_sum r 8 +
     Fate.apply_zero_sum r 9 + Fate.apply_zero_sum r 10 + Fate.apply_zero_sum r 11) / 6
    = 0 := by
  have hv : ∀ k : ℕ, (h : k < 12) → (((⟨k, h⟩ : Fin 12) : ℕ)) = k := fun _ _ => rfl
  simp only [Fate.apply_zero_sum, show ((0 : Fin 12) : ℕ) = 0 from rfl,
    show ((1 : Fin 12) : ℕ) = 1 from rfl, show ((2 : Fin 12) : ℕ) = 2 from rfl,
    show ((3 : Fin 12) : ℕ) = 3 from rfl, show ((4 : Fin 12) : ℕ) = 4 from rfl,
    show ((5 : Fin 12) : ℕ) = 5 from rfl, show ((6 : Fin 12) : ℕ) = 6 from rfl,
    show ((7 : Fin 12) : ℕ) = 7 from rfl, show ((8 : Fin 12) : ℕ) = 8 from rfl,
    show ((9 : Fin 12) : ℕ) = 9 from rfl, show ((10 : Fin 12) : ℕ) = 10 from rfl,
    show ((11 : Fin 12) : ℕ) = 11 from rfl]
  norm_num
  ring

/-- Helper: the explicit value of the `unit_target` mask row. -/
theorem Fate.unit_target_row_eq (m : ℕ) (smap : List ℕ) :
    Fate.unit_target_row m smap =
      [Fate.mask_bit m 0, Fate.mask_bit m 1, Fate.mask_bit m 2, Fate.mask_bit m 3,
       Fate.mask_bit m 4, Fate.mask_bit m 5, Fate.mask_bit m 6, Fate.mask_bit m 7,
       Fate.mask_bit m (8 + smap.getD 0 0), Fate.mask_bit m (8 + smap.getD 1 0),
       Fate.mask_bit m (8 + smap.getD 2 0), Fate.mask_bit m (8 + smap.getD 3 0),
       Fate.mask_bit m (8 + smap.getD 4 0), Fate.mask_bit m (8 + smap.getD 5 0)] := rfl

/-- C1: for every state, observer `i` and enemy sorted slot `s < 6`, the
`unit_target` mask row built by `encode_masks` from the sort map of
`encode` has, at column `8 + s`, bit `8 + sorted_to_real[i][s]` of the
raw `mask_unit_target` field, and at columns 0-7 the raw bits 0-7
unchanged. -/
theorem C1_unit_target_mask_sorted (units : Fin 12 → Fate.UnitState) (i : Fin 12) :
    (∀ s, s < 6 →
      (Fate.unit_target_row (units i).mask_unit_target (Fate.sorted_to_real units i)).getD (8 + s) false
        = Fate.mask_bit (units i).mask_unit_target (8 + (Fate.sorted_to_real units i).getD s 0)) ∧
    (∀ b, b < 8 →
      (Fate.unit_target_row (units i).mask_unit_target (Fate.sorted_to_real units i)).getD b false
        = Fate.mask_bit (units i).mask_unit_target b) := by
  constructor
  · intro s hs
    interval_cases s <;>
      simp [Fate.unit_target_row_eq, List.getD_cons_succ, List.getD_cons_zero]
  · intro b hb
    interval_cases b <;>
      simp [Fate.unit_target_row_eq, List.getD_cons_succ, List.getD_cons_zero]

/-- Witness for C1 at the concrete roster `exUnits`, observer 0, slot 0
and raw column 0. -/
theorem C1_witness :
    ((0 : ℕ) < 6 ∧
      (Fate.unit_target_row (Fate.exUnits 0).mask_unit_target
          (Fate.sorted_to_real Fate.exUnits 0)).getD (8 + 0) false
        = Fate.mask_bit (Fate.exUnits 0).mask_unit_target
            (8 + (Fate.sorted_to_real Fate.exUnits 0).getD 0 0)) ∧
    ((0 : ℕ) < 8 ∧
      (Fate.unit_target_row (Fate.exUnits 0).mask_unit_target
          (Fate.sorted_to_real Fate.exUnits 0)).getD 0 false
        = Fate.mask_bit (Fate.exUnits 0).mask_unit_target 0) :=
  ⟨⟨by decide, (C1_unit_target_mask_sorted Fate.exUnits 0).1 0 (by decide)⟩,
   ⟨by decide, (C1_unit_target_mask_sorted Fate.exUnits 0).2 0 (by decide)⟩⟩

/-- C2: for every state and observer `i`, the sort map row
`sorted_to_real[i]` produced by `encode` is a permutation of
`{0,...,5}`; and for a sampled `unit_target` value `8 + s` with
`s < 6` the ACTION emitter sends `8 + sorted_to_real[i][s]`, the real
enemy offset. -/
theorem C2_sort_map_permutation (units : Fin 12 → Fate.UnitState) (i : Fin 12) :
    List.Perm (Fate.sorted_to_real units i) [0, 1, 2, 3, 4, 5] ∧
    (∀ s, s < 6 → Fate.emitted_unit_target units i (8 + s)
        = 8 + (Fate.sorted_to_real units i).getD s 0) := by
  constructor
  · have h1 : List.Perm (Fate.sorted_to_real units i)
        ((Fate.enemySortRecords units i).map Fate.EnemySort.offset) :=
      (List.perm_insertionSort Fate.enemyLe (Fate.enemySortRecords units i)).map _
    have h2 : (Fate.enemySortRecords units i).map Fate.EnemySort.offset
        = [0, 1, 2, 3, 4, 5] := rfl
    exact h2 ▸ h1
  · intro s hs
    unfold Fate.emitted_unit_target
    rw [if_pos ⟨by omega, by omega⟩, Nat.add_sub_cancel_left]

/-- Witness for C2 at the concrete roster `exUnits`, observer 0,
sampled enemy slot 0. -/
theorem C2_witness :
    List.Perm (Fate.sorted_to_real Fate.exUnits 0) [0, 1, 2, 3, 4, 5] ∧
    ((0 : ℕ) < 6 ∧ Fate.emitted_unit_target Fate.exUnits 0 (8 + 0)
        = 8 + (Fate.sorted_to_real Fate.exUnits 0).getD 0 0) :=
  ⟨(C2_sort_map_permutation Fate.exUnits 0).1,
   by decide, (C2_sort_map_permutation Fate.exUnits 0).2 0 (by decide)⟩

/-- Helper: the hero one-hot index is always below 12. -/
theorem Fate.hero_to_idx_lt (hid : String) : Fate.hero_to_idx hid < 12 := by
  unfold Fate.hero_to_idx
  split
  · exact List.indexOf_lt_length.2 (by assumption)
  · norm_num

/-- C6: an alive enemy whose `visible_mask` bit for observer `i` is
clear is encoded, from observer `i`'s perspective, as a 43-float
vector that is zero everywhere except the alive entry (index 22) and
the single hero one-hot entry (index `23 + hero_idx`), which are 1. -/
theorem C6_fog_of_war_redaction (atan2F : ℚ → ℚ → ℚ) (sqrtF : ℚ → ℚ)
    (u : Fate.UnitState) (mx my : ℚ) (i : ℕ)
    (halive : u.alive ≠ 0) (hvis : (u.visible_mask >>> i) &&& 1 = 0) :
    (∀ j, j ≠ 22 → j ≠ 23 + Fate.hero_to_idx u.hero_id →
      (Fate.encode_enemy atan2F sqrtF u mx my i).getD j 0 = 0) ∧
    (Fate.encode_enemy atan2F sqrtF u mx my i).getD 22 0 = 1 ∧
    (Fate.encode_enemy atan2F sqrtF u mx my i).getD
        (23 + Fate.hero_to_idx u.hero_id) 0 = 1 := by
  have hv : Fate.mask_bit u.visible_mask i = false := by
    simp [Fate.mask_bit, hvis]
  have henc : Fate.encode_enemy atan2F sqrtF u mx my i
      = ((List.replicate 43 (0 : ℚ)).set 22 1).set
          (23 + Fate.hero_to_idx u.hero_id) 1 := by
    unfold Fate.encode_enemy
    rw [if_neg halive, if_pos hv]
  have hlt := Fate.hero_to_idx_lt u.hero_id
  refine ⟨?_, ?_, ?_⟩
  · intro j hj1 hj2
    rw [henc, List.getD_eq_getElem?_getD, List.getElem?_set_ne (Ne.symm hj2),
        List.getElem?_set_ne (Ne.symm hj1), List.getElem?_replicate]
    split <;> rfl
  · rw [henc, List.getD_eq_getElem?_getD,
        List.getElem?_set_ne (by omega : 23 + Fate.hero_to_idx u.hero_id ≠ 22),
        List.getElem?_set_eq_of_lt 1 (by simp : 22 < (List.replicate 43 (0 : ℚ)).length)]
    rfl
  · rw [henc, List.getD_eq_getElem?_getD,
        List.getElem?_set_eq_of_lt 1 (by simp; omega)]
    rfl

/-- Witness for C6 at the concrete invisible enemy `exEnemy`,
observer 0, checking entry 0 (zero) and entry 22 (alive = 1). -/
theorem C6_witness :
    (Fate.exEnemy.alive ≠ 0 ∧ (Fate.exEnemy.visible_mask >>> 0) &&& 1 = 0) ∧
    (Fate.encode_enemy (fun _ _ => 0) (fun _ => 0) Fate.exEnemy 0 0 0).getD 0 0 = 0 ∧
    (Fate.encode_enemy (fun _ _ => 0) (fun _ => 0) Fate.exEnemy 0 0 0).getD 22 0 = 1 :=
  ⟨⟨by decide, by decide⟩,
   (C6_fog_of_war_redaction (fun _ _ => 0) (fun _ => 0) Fate.exEnemy 0 0 0
      (by decide) (by decide)).1 0 (by decide) (by decide),
   (C6_fog_of_war_redaction (fun _ _ => 0) (fun _ => 0) Fate.exEnemy 0 0 0
      (by decide) (by decide)).2.1⟩

/-- Helper: a fold whose step fixes the accumulator on every list
element leaves it unchanged. -/
theorem Fate.foldl_fixed {α β : Type} (f : β → α → β) (l : List α) (b : β)
    (h : ∀ acc x, x ∈ l → f acc x = acc) : l.foldl f b = b := by
  induction l generalizing b with
  | nil => rfl
  | cons a t ih =>
      rw [List.foldl_cons, h b a (by simp)]
      exact ih b (fun acc x hx => h acc x (by simp [hx]))

/-- Helper: team spirit of an all-zero reward array is all zero. -/
theorem Fate.apply_team_spirit_zero (tau : ℚ) :
    Fate.apply_team_spirit tau (fun _ => 0) = fun _ => 0 := by
  funext i
  simp [Fate.apply_team_spirit]

/-- Helper: zero-sum of an all-zero reward array is all zero. -/
theorem Fate.apply_zero_sum_zero :
    Fate.apply_zero_sum (fun _ => 0) = fun _ => 0 := by
  funext i
  simp [Fate.apply_zero_sum]

/-- Helper: the creep-kill branch of the event switch with the guard
satisfied. -/
theorem Fate.evStep_creepKill (ext : Fate.ExternConsts)
    (units : Fin 12 → Fate.UnitState) (acc : (Fin 12 → ℚ) × (Fin 12 → ℕ))
    (ki vi : ℕ) (hk : ki < 12)
    (hl : (Fate.getUnit units ki).level < ext.creep_level_cap) :
    Fate.evStep ext units acc ⟨Fate.EvType.creepKill, ki, vi⟩
      = (Fate.addAt acc.1 ki Fate.creep_reward, acc.2) := by
  unfold Fate.evStep
  exact if_pos ⟨hk, hl⟩

/-- C7 (amended): when the per-tick reward computation processes a
CREEP_KILL event with a valid killer index whose level is below
`RewardDefaults::creep_level_cap`, it adds `creep_reward` to that
killer's individual pre-spirit reward (the event phase is a left
fold, so the event's effect on the running rewards is stated against
an arbitrary already-processed prefix `pre`). -/
theorem C7_creep_reward (ext : Fate.ExternConsts) (units : Fin 12 → Fate.UnitState)
    (pre : List Fate.Event) (ev : Fate.Event) (r0 : Fin 12 → ℚ) (pc0 : Fin 12 → ℕ)
    (ht : ev.typ = Fate.EvType.creepKill) (hk : ev.killer_idx < 12)
    (hl : (Fate.getUnit units ev.killer_idx).level < ext.creep_level_cap) :
    (Fate.event_phase ext units (pre ++ [ev]) r0 pc0).1 ⟨ev.killer_idx, hk⟩
      = (Fate.event_phase ext units pre r0 pc0).1 ⟨ev.killer_idx, hk⟩
        + Fate.creep_reward := by
  rcases ev with ⟨typ, ki, vi⟩
  simp only at ht hk hl
  cases ht
  unfold Fate.event_phase
  rw [List.foldl_append, List.foldl_cons, List.foldl_nil,
      Fate.evStep_creepKill ext units _ ki vi hk hl]
  simp [Fate.addAt]

/-- Witness for C7 at a concrete roster (all levels 1) with
`creep_level_cap = 100` and a CREEP_KILL credited to unit 0. -/
theorem C7_witness :
    (Fate.exCreepEv.typ = Fate.EvType.creepKill ∧ Fate.exCreepEv.killer_idx < 12 ∧
      (Fate.getUnit Fate.exUnits Fate.exCreepEv.killer_idx).level
        < Fate.exExtCap100.creep_level_cap) ∧
    (Fate.event_phase Fate.exExtCap100 Fate.exUnits ([] ++ [Fate.exCreepEv])
        (fun _ => 0) (fun _ => 0)).1 ⟨Fate.exCreepEv.killer_idx, by decide⟩
      = (Fate.event_phase Fate.exExtCap100 Fate.exUnits [] (fun _ => 0) (fun _ => 0)).1
          ⟨Fate.exCreepEv.killer_idx, by decide⟩ + Fate.creep_reward :=
  ⟨⟨rfl, by decide, by decide⟩,
   C7_creep_reward Fate.exExtCap100 Fate.exUnits [] Fate.exCreepEv
     (fun _ => 0) (fun _ => 0) rfl (by decide) (by decide)⟩

/-- C7 counterexample: the claim as stated (CREEP_KILL always credits
the killer) fails at a concrete input, because `reward_calc.cpp`
gates the creep reward on `units[killer].level <
RewardDefaults::creep_level_cap`: with a cap of 0 (the cap's defining
declaration is absent from the provided headers, so the embedding
takes it as a parameter) a valid CREEP_KILL leaves the killer's
reward at 0 instead of adding `creep_reward`. -/
theorem C7_counterexample :
    Fate.exCreepEv.typ = Fate.EvType.creepKill ∧ Fate.exCreepEv.killer_idx < 12 ∧
    (Fate.event_phase Fate.exExtCap0 Fate.exUnits [Fate.exCreepEv]
        (fun _ => 0) (fun _ => 0)).1 0 = 0 ∧
    Fate.creep_reward ≠ 0 :=
  ⟨rfl, by decide, rfl, by norm_num [Fate.creep_reward]⟩

/-- Helper: the event phase over an empty list is the identity. -/
theorem Fate.event_phase_nil (ext : Fate.ExternConsts)
    (units : Fin 12 → Fate.UnitState) (r : Fin 12 → ℚ) (pc : Fin 12 → ℕ) :
    Fate.event_phase ext units [] r pc = (r, pc) := rfl

/-- Helper: with unchanged hp, the damage loop adds nothing. -/
theorem Fate.damage_phase_hp_eq (units prev_units : Fin 12 → Fate.UnitState)
    (r : Fin 12 → ℚ) (hhp : ∀ i, (units i).hp = (prev_units i).hp) :
    Fate.damage_phase units prev_units r = r := by
  apply Fate.foldl_fixed
  intro acc x _
  unfold Fate.damage_step
  rw [if_neg]
  rintro ⟨-, h2, -⟩
  rw [hhp x] at h2
  simp at h2

/-- Helper: with unchanged hp, the heal loop adds nothing. -/
theorem Fate.heal_phase_hp_eq (units prev_units : Fin 12 → Fate.UnitState)
    (r : Fin 12 → ℚ) (hhp : ∀ i, (units i).hp = (prev_units i).hp) :
    Fate.heal_phase units prev_units r = r := by
  apply Fate.foldl_fixed
  intro acc x _
  unfold Fate.heal_step
  rw [if_neg]
  rintro ⟨-, -, h3, -⟩
  rw [hhp x] at h3
  simp at h3

/-- Helper: with unchanged scores, the score phase adds nothing. -/
theorem Fate.score_phase_eq (global prev_global : Fate.GlobalState)
    (r : Fin 12 → ℚ)
    (h0 : global.score_team0 = prev_global.score_team0)
    (h1 : global.score_team1 = prev_global.score_team1) :
    Fate.score_phase global prev_global r = r := by
  unfold Fate.score_phase
  rw [h0, h1]
  simp

/-- Helper: with every agent moved at least 10 world units and no
unspent skill points, the per-tick penalty phase leaves an all-zero
reward array all zero. -/
theorem Fate.tick_phase_zero (units prev_units : Fin 12 → Fate.UnitState)
    (has_prev : Bool) (st : Fate.CalcState)
    (hmove : ∀ i : Fin 12,
      100 ≤ ((units i).x - st.prev_x i) * ((units i).x - st.prev_x i)
          + ((units i).y - st.prev_y i) * ((units i).y - st.prev_y i))
    (hsp : ∀ i, (units i).skill_points = 0) :
    (Fate.tick_phase units prev_units has_prev st (fun _ => 0)).1 = fun _ => 0 := by
  funext j
  simp only [Fate.tick_phase]
  split
  · have h1 : ¬ (st.has_prev_pos = true ∧
        ((units j).x - st.prev_x j) * ((units j).x - st.prev_x j)
          + ((units j).y - st.prev_y j) * ((units j).y - st.prev_y j) < 100 ∧
        Fate.in_combat units prev_units has_prev j = false) := by
      rintro ⟨-, hlt, -⟩
      exact absurd hlt (not_lt.2 (hmove j))
    have h2 : ¬ ((units j).skill_points > 0) := by
      rw [hsp j]
      norm_num
    rw [if_neg h1, if_neg h2]
    ring
  · rfl

/-- C8 (amended): with zero events, equal scores, every agent moved
at least 10 world units, and additionally unchanged hp for every unit
and no unspent skill points, the full per-tick pipeline (events,
damage/heal, score deltas, shaping, team spirit, zero-sum, time
decay) returns reward 0 for every agent, for any decay factor and
external constants. -/
theorem C8_zero_reward (ext : Fate.ExternConsts) (decay : ℚ)
    (units prev_units : Fin 12 → Fate.UnitState)
    (global prev_global : Fate.GlobalState) (has_prev : Bool) (st : Fate.CalcState)
    (hs0 : global.score_team0 = prev_global.score_team0)
    (hs1 : global.score_team1 = prev_global.score_team1)
    (hmove : ∀ i : Fin 12,
      100 ≤ ((units i).x - st.prev_x i) * ((units i).x - st.prev_x i)
          + ((units i).y - st.prev_y i) * ((units i).y - st.prev_y i))
    (hhp : ∀ i, (units i).hp = (prev_units i).hp)
    (hsp : ∀ i, (units i).skill_points = 0) :
    ∀ i, (Fate.compute ext decay units global [] prev_units prev_global
        has_prev st).1 i = 0 := by
  intro i
  have hdh : Fate.heal_phase units prev_units
      (Fate.damage_phase units prev_units (fun _ => 0)) = (fun _ => (0 : ℚ)) := by
    rw [Fate.damage_phase_hp_eq units prev_units _ hhp,
        Fate.heal_phase_hp_eq units prev_units _ hhp]
  simp only [Fate.compute, Fate.event_phase_nil]
  cases has_prev
  · rw [if_neg (by simp), if_neg (by simp),
        Fate.tick_phase_zero units prev_units false st hmove hsp,
        Fate.apply_team_spirit_zero, Fate.apply_zero_sum_zero]
    simp [Fate.apply_time_decay]
  · rw [if_pos rfl, if_pos rfl, hdh,
        Fate.score_phase_eq global prev_global _ hs0 hs1,
        Fate.tick_phase_zero units prev_units true st hmove hsp,
        Fate.apply_team_spirit_zero, Fate.apply_zero_sum_zero]
    simp [Fate.apply_time_decay]

/-- Witness for C8 at a concrete input: every agent alive, moved 100
world units, unchanged hp and scores, no skill points. -/
theorem C8_witness :
    (Fate.cexGlobal.score_team0 = Fate.cexGlobal.score_team0 ∧
     Fate.cexGlobal.score_team1 = Fate.cexGlobal.score_team1 ∧
     (∀ i : Fin 12,
       100 ≤ ((Fate.c8Units i).x - Fate.cexSt.prev_x i) * ((Fate.c8Units i).x - Fate.cexSt.prev_x i)
           + ((Fate.c8Units i).y - Fate.cexSt.prev_y i) * ((Fate.c8Units i).y - Fate.cexSt.prev_y i)) ∧
     (∀ i, (Fate.c8Units i).hp = (Fate.c8Units i).hp) ∧
     (∀ i, (Fate.c8Units i).skill_points = 0)) ∧
    (Fate.compute Fate.exExtCap0 1 Fate.c8Units Fate.cexGlobal []
        Fate.c8Units Fate.cexGlobal true Fate.cexSt).1 0 = 0 :=
  ⟨⟨rfl, rfl, fun i => by norm_num [Fate.c8Units, Fate.cexSt, Fate.exUnit],
    fun i => rfl, fun i => rfl⟩,
   C8_zero_reward Fate.exExtCap0 1 Fate.c8Units Fate.c8Units Fate.cexGlobal
     Fate.cexGlobal true Fate.cexSt rfl rfl
     (fun i => by norm_num [Fate.c8Units, Fate.cexSt, Fate.exUnit])
     (fun i => rfl) (fun i => rfl) 0⟩

/-- C8 counterexample: the claim as stated (zero events, equal
scores, all agents moved at least 10 units imply zero reward) fails
at a concrete input, because the pipeline also contains the
skill-points-held penalty (and damage/heal shaping): with agent 0
holding one unspent skill point and everything else neutral
(`game_time = 0`, so the decay factor is exactly `pow(0.7,0) = 1`),
agent 0's final reward is `-7/600`, not 0. -/
theorem C8_counterexample :
    (∀ i : Fin 12,
      100 ≤ ((Fate.cexUnits i).x - Fate.cexSt.prev_x i) * ((Fate.cexUnits i).x - Fate.cexSt.prev_x i)
          + ((Fate.cexUnits i).y - Fate.cexSt.prev_y i) * ((Fate.cexUnits i).y - Fate.cexSt.prev_y i)) ∧
    Fate.cexGlobal.score_team0 = Fate.cexGlobal.score_team0 ∧
    Fate.cexGlobal.score_team1 = Fate.cexGlobal.score_team1 ∧
    (Fate.compute Fate.exExtCap0 1 Fate.cexUnits Fate.cexGlobal []
        Fate.cexPrev Fate.cexGlobal true Fate.cexSt).1 0 = -7/600 ∧
    (-7/600 : ℚ) ≠ 0 := by
  refine ⟨?_, rfl, rfl, ?_, by norm_num⟩
  · intro i
    by_cases hi : (i : ℕ) = 0 <;>
      norm_num [Fate.cexUnits, Fate.cexSt, Fate.exUnit, hi]
  · have hhp : ∀ i, (Fate.cexUnits i).hp = (Fate.cexPrev i).hp := by
      intro i
      by_cases hi : (i : ℕ) = 0 <;> simp [Fate.cexUnits, Fate.cexPrev, hi]
    have htick : (Fate.tick_phase Fate.cexUnits Fate.cexPrev true Fate.cexSt
        (fun _ => 0)).1 = fun (i : Fin 12) => if (i : ℕ) = 0 then (-1/50 : ℚ) else 0 := by
      funext j
      by_cases hj : (j : ℕ) = 0 <;>
        norm_num [Fate.tick_phase, Fate.cexUnits, Fate.cexPrev, Fate.cexSt,
          Fate.exUnit, Fate.skill_points_held, hj]
    simp only [Fate.compute, Fate.event_phase_nil, if_true]
    rw [Fate.damage_phase_hp_eq Fate.cexUnits Fate.cexPrev _ hhp,
        Fate.heal_phase_hp_eq Fate.cexUnits Fate.cexPrev _ hhp,
        Fate.score_phase_eq Fate.cexGlobal Fate.cexGlobal _ rfl rfl, htick]
    norm_num [Fate.apply_time_decay, Fate.apply_zero_sum, Fate.apply_team_spirit,
      Fate.team_spirit,
      show ((0 : Fin 12) : ℕ) = 0 from rfl, show ((1 : Fin 12) : ℕ) = 1 from rfl,
      show ((2 : Fin 12) : ℕ) = 2 from rfl, show ((3 : Fin 12) : ℕ) = 3 from rfl,
      show ((4 : Fin 12) : ℕ) = 4 from rfl, show ((5 : Fin 12) : ℕ) = 5 from rfl,
      show ((6 : Fin 12) : ℕ) = 6 from rfl, show ((7 : Fin 12) : ℕ) = 7 from rfl,
      show ((8 : Fin 12) : ℕ) = 8 from rfl, show ((9 : Fin 12) : ℕ) = 9 from rfl,
      show ((10 : Fin 12) : ℕ) = 10 from rfl, show ((11 : Fin 12) : ℕ) = 11 from rfl]

/-- Helper: invariant of the phase-1 fold over STATE packets of a
single instance that already has a kept tick. -/
theorem Fate.classify_invariant (k : ℕ) (pkts : List Fate.Packet)
    (hall : ∀ p ∈ pkts, p.inst = k ∧ p.kind = Fate.MsgKind.state) :
    ∀ (c : Fate.Classified) (t0 : ℕ), c.latest_tick k = some t0 →
      (pkts.foldl Fate.classifyStep c).latest_tick k
          = some ((pkts.map Fate.Packet.tick).foldl max t0) ∧
      (pkts.foldl Fate.classifyStep c).skipped = c.skipped + pkts.length := by
  induction pkts with
  | nil =>
      intro c t0 h
      simpa using h
  | cons p rest ih =>
      intro c t0 h
      obtain ⟨hpi, hpk⟩ := hall p (by simp)
      have hstep : Fate.classifyStep c p =
          { c with
            latest_tick := fun k2 =>
              if k2 = p.inst then some (if p.tick ≥ t0 then p.tick else t0)
              else c.latest_tick k2,
            skipped := c.skipped + 1 } := by
        simp only [Fate.classifyStep, hpk, hpi, h]
      have hall2 : ∀ q ∈ rest, q.inst = k ∧ q.kind = Fate.MsgKind.state :=
        fun q hq => hall q (by simp [hq])
      have hlook : (Fate.classifyStep c p).latest_tick k
          = some (if p.tick ≥ t0 then p.tick else t0) := by
        rw [hstep]
        simp [hpi]
      obtain ⟨h1, h2⟩ := ih hall2 (Fate.classifyStep c p) _ hlook
      have hmax : (if p.tick ≥ t0 then p.tick else t0) = max t0 p.tick := by
        rcases le_or_lt t0 p.tick with hle | hlt
        · rw [if_pos hle, Nat.max_eq_right hle]
        · rw [if_neg (not_le.2 hlt), Nat.max_eq_left (le_of_lt hlt)]
      constructor
      · rw [List.foldl_cons, h1, List.map_cons, List.foldl_cons, hmax]
      · rw [List.foldl_cons, h2, hstep]
        simp
        omega

/-- C10: if `N >= 1` STATE packets of the same instance arrive in one
drain cycle, the classification keeps exactly one tick for that
instance — the largest one — and the skipped counter increases by
`N - 1`. -/
theorem C10_latest_state_admission (k : ℕ) (p0 : Fate.Packet)
    (rest : List Fate.Packet)
    (hall : ∀ p ∈ (p0 :: rest), p.inst = k ∧ p.kind = Fate.MsgKind.state) :
    (Fate.classify (p0 :: rest)).latest_tick k
        = some (((p0 :: rest).map Fate.Packet.tick).foldl max 0) ∧
    (Fate.classify (p0 :: rest)).skipped = (p0 :: rest).length - 1 := by
  obtain ⟨hpi, hpk⟩ := hall p0 (by simp)
  have hstep : Fate.classifyStep ⟨fun _ => none, [], 0⟩ p0 =
      ⟨fun k2 => if k2 = p0.inst then some p0.tick else none, [], 0⟩ := by
    simp only [Fate.classifyStep, hpk]
  have hall2 : ∀ q ∈ rest, q.inst = k ∧ q.kind = Fate.MsgKind.state :=
    fun q hq => hall q (by simp [hq])
  have hlook : (Fate.classifyStep ⟨fun _ => none, [], 0⟩ p0).latest_tick k
      = some p0.tick := by
    rw [hstep]
    simp [hpi]
  obtain ⟨h1, h2⟩ := Fate.classify_invariant k rest hall2
    (Fate.classifyStep ⟨fun _ => none, [], 0⟩ p0) p0.tick hlook
  unfold Fate.classify
  rw [List.foldl_cons]
  constructor
  · rw [h1, List.map_cons, List.foldl_cons, Nat.zero_max]
  · rw [h2, hstep]
    simp

/-- Witness for C10 at three concrete STATE packets of instance 7
with ticks 10, 12, 11: tick 12 is kept and two packets are skipped. -/
theorem C10_witness :
    (∀ p ∈ Fate.exPackets, p.inst = 7 ∧ p.kind = Fate.MsgKind.state) ∧
    (Fate.classify Fate.exPackets).latest_tick 7 = some 12 ∧
    (Fate.classify Fate.exPackets).skipped = 2 :=
  ⟨by decide,
   (C10_latest_state_admission 7 ⟨7, Fate.MsgKind.state, 10⟩
      [⟨7, Fate.MsgKind.state, 12⟩, ⟨7, Fate.MsgKind.state, 11⟩] (by decide)).1,
   (C10_latest_state_admission 7 ⟨7, Fate.MsgKind.state, 10⟩
      [⟨7, Fate.MsgKind.state, 12⟩, ⟨7, Fate.MsgKind.state, 11⟩] (by decide)).2⟩

/-- Helper: the inference loop's effect on the LSTM maps is the fold
of `mapStep`. -/
theorem Fate.foldl_tickStep_maps (heroOf : Fin 12 → String)
    (forward : Fin 12 → ℤ × ℤ → ℤ × ℤ) (l : List (Fin 12)) (acc : Fate.TickAcc) :
    (l.foldl (Fate.tickStep heroOf forward) acc).maps
      = l.foldl (Fate.mapStep heroOf forward) acc.maps := by
  induction l generalizing acc with
  | nil => rfl
  | cons a t ih =>
      rw [List.foldl_cons, List.foldl_cons, ih]
      rfl

/-- Helper: later iterations of the inference loop do not touch the
snapshot entries of other agents. -/
theorem Fate.foldl_tickStep_untouched (heroOf : Fin 12 → String)
    (forward : Fin 12 → ℤ × ℤ → ℤ × ℤ) (l : List (Fin 12))
    (acc : Fate.TickAcc) (i : Fin 12) (hi : i ∉ l) :
    (l.foldl (Fate.tickStep heroOf forward) acc).input_hx_h i = acc.input_hx_h i ∧
    (l.foldl (Fate.tickStep heroOf forward) acc).input_hx_c i = acc.input_hx_c i ∧
    (l.foldl (Fate.tickStep heroOf forward) acc).new_pairs i = acc.new_pairs i := by
  induction l generalizing acc with
  | nil => exact ⟨rfl, rfl, rfl⟩
  | cons a t ih =>
      have hia : i ≠ a := by
        intro hcon
        exact hi (by simp [hcon])
      have hit : i ∉ t := fun hmem => hi (by simp [hmem])
      rw [List.foldl_cons]
      obtain ⟨e1, e2, e3⟩ := ih (Fate.tickStep heroOf forward acc a) hit
      refine ⟨?_, ?_, ?_⟩
      · rw [e1]
        simp [Fate.tickStep, hia]
      · rw [e2]
        simp [Fate.tickStep, hia]
      · rw [e3]
        simp [Fate.tickStep, hia]

/-- C5: when transitions are stored (the instance has a previous
tick), the hidden pair saved in agent `i`'s transition equals the
pair that was the input to that agent's inference at this tick, and —
whenever the forward pass actually changed the pair — not the new
pair it produced. -/
theorem C5_transition_stores_input_hidden (heroOf : Fin 12 → String)
    (forward : Fin 12 → ℤ × ℤ → ℤ × ℤ) (m0 : Fate.HxMaps) (i : Fin 12)
    (has_prev : Bool) (hp : has_prev = true) :
    Fate.storedHx heroOf forward m0 has_prev i
        = some (Fate.inputPair heroOf forward m0 i) ∧
    (forward i (Fate.inputPair heroOf forward m0 i)
        ≠ Fate.inputPair heroOf forward m0 i →
      Fate.storedHx heroOf forward m0 has_prev i
        ≠ some ((Fate.runAgents heroOf forward m0).new_pairs i)) := by
  subst hp
  have hlen : (i : ℕ) < (List.finRange 12).length := by simp
  have hsplit : List.finRange 12
      = (List.finRange 12).take (i : ℕ)
        ++ i :: (List.finRange 12).drop ((i : ℕ) + 1) := by
    conv_lhs => rw [← List.take_append_drop (i : ℕ) (List.finRange 12)]
    rw [List.drop_eq_getElem_cons hlen]
    simp
  have hnd := List.nodup_finRange 12
  rw [hsplit] at hnd
  have hnotin : i ∉ (List.finRange 12).drop ((i : ℕ) + 1) :=
    (List.nodup_cons.1 hnd.of_append_right).1
  have hfold : Fate.runAgents heroOf forward m0
      = ((List.finRange 12).drop ((i : ℕ) + 1)).foldl (Fate.tickStep heroOf forward)
          (Fate.tickStep heroOf forward
            (((List.finRange 12).take (i : ℕ)).foldl (Fate.tickStep heroOf forward)
              ⟨m0, fun _ => 0, fun _ => 0, fun _ => (0, 0)⟩) i) := by
    unfold Fate.runAgents
    conv_lhs => rw [hsplit]
    rw [List.foldl_append, List.foldl_cons]
  have hmaps : (((List.finRange 12).take (i : ℕ)).foldl (Fate.tickStep heroOf forward)
      (⟨m0, fun _ => 0, fun _ => 0, fun _ => (0, 0)⟩ : Fate.TickAcc)).maps
      = Fate.mapsAfter heroOf forward m0 (i : ℕ) := by
    rw [Fate.foldl_tickStep_maps]
    rfl
  obtain ⟨e1, e2, e3⟩ := Fate.foldl_tickStep_untouched heroOf forward
    ((List.finRange 12).drop ((i : ℕ) + 1))
    (Fate.tickStep heroOf forward
      (((List.finRange 12).take (i : ℕ)).foldl (Fate.tickStep heroOf forward)
        ⟨m0, fun _ => 0, fun _ => 0, fun _ => (0, 0)⟩) i) i hnotin
  have hin_h : (Fate.runAgents heroOf forward m0).input_hx_h i
      = ((Fate.mapsAfter heroOf forward m0 (i : ℕ)).hxh (heroOf i)).getD 0 := by
    rw [hfold, e1, ← hmaps]
    simp [Fate.tickStep]
  have hin_c : (Fate.runAgents heroOf forward m0).input_hx_c i
      = ((Fate.mapsAfter heroOf forward m0 (i : ℕ)).hxc (heroOf i)).getD 0 := by
    rw [hfold, e2, ← hmaps]
    simp [Fate.tickStep]
  have hip : Fate.inputPair heroOf forward m0 i
      = (((Fate.mapsAfter heroOf forward m0 (i : ℕ)).hxh (heroOf i)).getD 0,
         ((Fate.mapsAfter heroOf forward m0 (i : ℕ)).hxc (heroOf i)).getD 0) := rfl
  have hnew : (Fate.runAgents heroOf forward m0).new_pairs i
      = forward i (Fate.inputPair heroOf forward m0 i) := by
    rw [hfold, e3, hip, ← hmaps]
    simp [Fate.tickStep]
  constructor
  · unfold Fate.storedHx
    rw [if_pos rfl, hin_h, hin_c, hip]
  · intro hneq
    unfold Fate.storedHx
    rw [if_pos rfl, hin_h, hin_c, hnew]
    intro hcon
    have h2 : Fate.inputPair heroOf forward m0 i
        = forward i (Fate.inputPair heroOf forward m0 i) := by
      rw [hip]
      exact Option.some.inj hcon
    exact hneq h2.symm

/-- Witness for C5 at the concrete hero map, incrementing forward
pass and empty maps: agent 0's stored pair is its input pair, which
evaluates to the zero pair. -/
theorem C5_witness :
    (true = true) ∧
    Fate.storedHx Fate.exHeroOf Fate.exForward Fate.exM0 true 0
      = some (Fate.inputPair Fate.exHeroOf Fate.exForward Fate.exM0 0) ∧
    Fate.inputPair Fate.exHeroOf Fate.exForward Fate.exM0 0 = (0, 0) :=
  ⟨rfl,
   (C5_transition_stores_input_hidden Fate.exHeroOf Fate.exForward Fate.exM0 0
      true rfl).1,
   rfl⟩

/-- C4 counterexample: the claim's single artifact
`<model_dir>/model_latest.pt` is not among the paths the inference
engine stats or loads — for `model_dir = "m"` the engine's artifact
set is the twelve per-hero files `m/<hero_id>.pt`. -/
theorem C4_counterexample :
    "m/model_latest.pt" ∉ Fate.hero_model_paths "m" ∧
    Fate.hero_model_paths "m" ≠ ["m/model_latest.pt"] := by
  constructor
  · decide
  · decide

/-- C4 (amended): the engine's model artifacts are the twelve
per-hero files `<model_dir>/<hero_id>.pt`; construction attempts to
load each of them, and on each periodic reload check each of these
paths is stat-ed and a reload is attempted exactly when the file
exists and either no load time is recorded for it or its modification
time differs from the recorded one. -/
theorem C4_per_hero_model_reload (dir : String)
    (fsTime recTime : String → Option ℕ) (hid : String)
    (hmem : hid ∈ Fate.hero_ids) :
    (Fate.hero_model_paths dir = Fate.hero_ids.map (fun h => Fate.model_path dir h)) ∧
    (hid ∈ Fate.reloaded_heroes dir fsTime recTime ↔
      ∃ t, fsTime (Fate.model_path dir hid) = some t ∧
           recTime (Fate.model_path dir hid) ≠ some t) := by
  refine ⟨rfl, ?_⟩
  unfold Fate.reloaded_heroes
  rw [List.mem_filter]
  constructor
  · rintro ⟨-, hdec⟩
    cases hf : fsTime (Fate.model_path dir hid) with
    | none =>
        simp only [Fate.reload_decision, hf] at hdec
        exact absurd hdec (by simp)
    | some t =>
        refine ⟨t, rfl, ?_⟩
        cases hr : recTime (Fate.model_path dir hid) with
        | none => simp
        | some t0 =>
            simp only [Fate.reload_decision, hf, hr, bne_iff_ne] at hdec
            simp [hdec]
  · rintro ⟨t, hf, hr⟩
    refine ⟨hmem, ?_⟩
    cases hrec : recTime (Fate.model_path dir hid) with
    | none => simp only [Fate.reload_decision, hf, hrec]
    | some t0 =>
        simp only [Fate.reload_decision, hf, hrec, bne_iff_ne]
        rw [hrec] at hr
        intro hcon
        exact hr (by rw [hcon])

/-- Witness for C4: hero "H000" with only `m/H000.pt` on disk (mtime
5) and nothing recorded; the reload check attempts to reload it. -/
theorem C4_witness :
    ("H000" ∈ Fate.hero_ids) ∧
    ("H000" ∈ Fate.reloaded_heroes "m" Fate.exFsTime Fate.exRecTime ↔
      ∃ t, Fate.exFsTime (Fate.model_path "m" "H000") = some t ∧
           Fate.exRecTime (Fate.model_path "m" "H000") ≠ some t) ∧
    "H000" ∈ Fate.reloaded_heroes "m" Fate.exFsTime Fate.exRecTime :=
  ⟨by decide,
   (C4_per_hero_model_reload "m" Fate.exFsTime Fate.exRecTime "H000" (by decide)).2,
   by decide⟩

/-- C3 (code bug): the in-bounds property fails in the code. At the
concrete input with all units dead, no pathability plane and no
creeps, every post-memset store of `encode_grid` is a portal-channel
store at flat offset `3 * 1200 + cell`, at or beyond the
`GRID_CHANNELS * GRID_CELLS = 3600` floats of the observer's
`(3, 25, 48)` grid slice (and the portal store list is nonempty); and
the `item_buy` loop of `encode_masks` writes column 17 of the
arity-17 `item_buy` head. -/
theorem C3_out_of_bounds_writes :
    Fate.encode_grid_writes 0 0 Fate.deadUnits [] [] [] = Fate.portal_write_indices ∧
    Fate.portal_write_indices ≠ [] ∧
    (∀ k ∈ Fate.portal_write_indices, Fate.GRID_CHANNELS * Fate.GRID_CELLS ≤ k) ∧
    (17 ∈ Fate.item_buy_write_cols ∧ ("item_buy", 17) ∈ Fate.discrete_heads ∧
      ¬ (17 < 17)) := by
  refine ⟨?_, ?_, ?_, by decide, by decide, by decide⟩
  · have hpath : (if ([] : List ℕ).length = Fate.GRID_CELLS
        then List.range Fate.GRID_CELLS else []) = [] := by
      norm_num [Fate.GRID_CELLS, Fate.OBS_GRID_W, Fate.OBS_GRID_H]
    have hunits : (List.finRange 12).filterMap
        (Fate.unit_cell_write 0 0 Fate.deadUnits) = [] := by
      rw [List.filterMap_eq_nil_iff]
      intro a _
      simp [Fate.unit_cell_write, Fate.deadUnits, Fate.exUnit]
    unfold Fate.encode_grid_writes
    rw [hpath, hunits]
    simp
  · unfold Fate.portal_write_indices Fate.PORTALS
    simp
  · intro k hk
    simp only [Fate.portal_write_indices, List.mem_flatMap] at hk
    obtain ⟨p, -, hkp⟩ := hk
    have h36 : Fate.GRID_CHANNELS * Fate.GRID_CELLS = 3 * Fate.GRID_CELLS := by
      norm_num [Fate.GRID_CHANNELS]
    rw [h36]
    simp only [List.mem_cons, List.not_mem_nil, or_false] at hkp
    rcases hkp with rfl | rfl
    · exact Nat.le_add_right _ _
    · exact Nat.le_add_right _ _

/-- Witness for C3: the first portal's entrance write offset is at or
beyond the slice bound. -/
theorem C3_witness :
    Fate.GRID_CHANNELS * Fate.GRID_CELLS
      ≤ 3 * Fate.GRID_CELLS + Fate.cell_index (-7328) 2128 :=
  C3_out_of_bounds_writes.2.2.1 _
    (by
      unfold Fate.portal_write_indices Fate.PORTALS
      simp)
